import Mathlib

/-
Verification of chartjs/util.py.

Python `datetime.date` values are represented by their proleptic Gregorian
ordinal (`date.toordinal()`, with 0001-01-01 ↦ 1).  Subtracting two dates
gives the day count `(a - b).days`, and `a + datetime.timedelta(n)` adds `n`
to the ordinal.  The year/month/day components of a date are recovered from
the ordinal by the standard civil-calendar conversion.  Fallible Python code
(raising ValueError / propagating queryset exceptions) is embedded in
`Except`.
-/

/-- A Python `datetime.date`, represented by its proleptic Gregorian ordinal. -/
structure Date where
  ord : Int
deriving DecidableEq

/-- Days relative to 1970-01-01 of the civil date `y-m-d`
(standard civil-calendar conversion). -/
def days_from_civil (y m d : Int) : Int :=
  let y2 : Int := if m ≤ 2 then y - 1 else y
  let era : Int := Int.ediv y2 400
  let yoe : Int := y2 - era * 400
  let doy : Int := Int.ediv (153 * (if 2 < m then m - 3 else m + 9) + 2) 5 + d - 1
  let doe : Int := yoe * 365 + Int.ediv yoe 4 - Int.ediv yoe 100 + doy
  era * 146097 + doe - 719468

/-- Inverse of `days_from_civil`: the civil date `(y, m, d)` of a day number
relative to 1970-01-01. -/
def civil_from_days (z0 : Int) : Int × Int × Int :=
  let z : Int := z0 + 719468
  let era : Int := Int.ediv z 146097
  let doe : Int := z - era * 146097
  let yoe : Int := Int.ediv (doe - Int.ediv doe 1460 + Int.ediv doe 36524 - Int.ediv doe 146096) 365
  let y : Int := yoe + era * 400
  let doy : Int := doe - (365 * yoe + Int.ediv yoe 4 - Int.ediv yoe 100)
  let mp : Int := Int.ediv (5 * doy + 2) 153
  let d : Int := doy - Int.ediv (153 * mp + 2) 5 + 1
  let m : Int := mp + (if mp < 10 then 3 else -9)
  (if m ≤ 2 then y + 1 else y, m, d)

/-- `datetime.date(y, m, d).toordinal()`. -/
def toordinal (y m d : Int) : Int := days_from_civil y m d + 719163

/-- `date.year`. -/
def Date.year (dt : Date) : Int := (civil_from_days (dt.ord - 719163)).1

/-- `date.month`. -/
def Date.month (dt : Date) : Int := (civil_from_days (dt.ord - 719163)).2.1

/-- `date.day`. -/
def Date.day (dt : Date) : Int := (civil_from_days (dt.ord - 719163)).2.2

/-- `date + datetime.timedelta(n)`. -/
def Date.addDays (dt : Date) (n : Int) : Date := ⟨dt.ord + n⟩

/-- `(a - b).days`. -/
def Date.sub (a b : Date) : Int := a.ord - b.ord

/-- Gregorian leap-year test (as in Python's `datetime`). -/
def isLeap (y : Int) : Bool := y % 4 == 0 && (y % 100 != 0 || y % 400 == 0)

/-- Number of days in month `m` of year `y` (as validated by the
`datetime.date` constructor). -/
def daysInMonth (y m : Int) : Int :=
  if m = 2 then (if isLeap y then 29 else 28)
  else if m = 4 ∨ m = 6 ∨ m = 9 ∨ m = 11 then 30
  else 31

/-- ASCII digit test (the `\d` of the strptime format regex). -/
def isDig (c : Char) : Bool := decide (48 ≤ c.toNat ∧ c.toNat ≤ 57)

/-- Numeric value of a digit character. -/
def digitVal (c : Char) : Nat := c.toNat - 48

/-- `datetime.strptime` raises `ValueError` when the string does not match
the format or encodes an impossible date; the spec calls this ParseError. -/
inductive ParseError where
  | parseError
deriving DecidableEq

/-- Reads the one- or two-digit numeral matched by the strptime patterns for
`%m` (`1[0-2]|0[1-9]|[1-9]`, `maxTwo = 12`) and `%d`
(`3[01]|[12]\d|0[1-9]|[1-9]`, `maxTwo = 31`): a two-digit reading is taken
when the first two characters are digits whose value lies in `1..maxTwo`,
otherwise a single nonzero digit is read. -/
def read2or1 (maxTwo : Nat) : List Char → Option (Nat × List Char)
  | c1 :: c2 :: rest =>
    if isDig c1 ∧ isDig c2 ∧ 1 ≤ 10 * digitVal c1 + digitVal c2
        ∧ 10 * digitVal c1 + digitVal c2 ≤ maxTwo then
      some (10 * digitVal c1 + digitVal c2, rest)
    else if isDig c1 ∧ 1 ≤ digitVal c1 then
      some (digitVal c1, c2 :: rest)
    else none
  | [c1] => if isDig c1 ∧ 1 ≤ digitVal c1 then some (digitVal c1, []) else none
  | [] => none

/-- `str_to_datetime_date`: `datetime.datetime.strptime(datestr, "%Y-%m-%d").date()`.
The `%Y` directive matches exactly four digits, `%m` and `%d` match one or
two digits in range, the whole string must be consumed, and the resulting
components must form an existing `datetime.date` (year `1..9999`, day within
the month). -/
def str_to_datetime_date (s : String) : Except ParseError Date :=
  match s.data with
  | c1 :: c2 :: c3 :: c4 :: c5 :: rest =>
    if isDig c1 ∧ isDig c2 ∧ isDig c3 ∧ isDig c4 ∧ c5 = '-' then
      let y : Nat := 1000 * digitVal c1 + 100 * digitVal c2 + 10 * digitVal c3 + digitVal c4
      match read2or1 12 rest with
      | some (m, c6 :: rest2) =>
        if c6 = '-' then
          match read2or1 31 rest2 with
          | some (d, []) =>
            if 1 ≤ y ∧ y ≤ 9999 ∧ (d : Int) ≤ daysInMonth y m then
              .ok ⟨toordinal y m d⟩
            else .error .parseError
          | _ => .error .parseError
        else .error .parseError
      | _ => .error .parseError
    else .error .parseError
  | _ => .error .parseError

/-- A start/end argument of `date_range` / `value_or_null`: either a
`datetime.date` or a string. -/
inductive DateSpec where
  | date (dt : Date)
  | str (s : String)

/-- The `if type(x) == str: x = str_to_datetime_date(x)` normalization done
at the top of `date_range` and `value_or_null`. -/
def DateSpec.normalize : DateSpec → Except ParseError Date
  | .date dt => .ok dt
  | .str s => str_to_datetime_date s

/-- The list of dates yielded by `date_range` once both endpoints are
normalized: `number_of_days = (end - start).days (+ 1 if inclusive)`, and the
generator yields `start + timedelta(days)` for `days in range(number_of_days)`
(empty when the count is ≤ 0, as in Python's `range`). -/
def date_range_from (start_date end_date : Date) (inclusive : Bool) : List Date :=
  let number_of_days : Int := end_date.sub start_date + (if inclusive then 1 else 0)
  (List.range number_of_days.toNat).map (fun (days : Nat) => start_date.addDays (days : Int))

/-- `date_range(start_date, end_date, inclusive)` (the Python default for
`inclusive` is `True`). -/
def date_range (start_date end_date : DateSpec) (inclusive : Bool) :
    Except ParseError (List Date) :=
  match start_date.normalize with
  | .error e => .error e
  | .ok s =>
    match end_date.normalize with
    | .error e => .error e
    | .ok e => .ok (date_range_from s e inclusive)

/-- A dynamically typed Python value yielded by `value_or_null`: either a
value of the queryset's numeric field or a string (in particular the literal
`'null'` sentinel). -/
inductive PyVal (α : Type) where
  | num (a : α)
  | str (s : String)
deriving DecidableEq

/-- A DataRecord as seen through `vars(record)`: a map from attribute names
to values. -/
def Record (α : Type) : Type := String → PyVal α

/-- Sequential effectful map over a list in `Except`: the elements a Python
generator yields in order, stopping at the first raised exception. -/
def mapE (f : α → Except ε β) : List α → Except ε (List β)
  | [] => .ok []
  | a :: l =>
    match f a with
    | .error e => .error e
    | .ok b =>
      match mapE f l with
      | .error e => .error e
      | .ok bs => .ok (b :: bs)

/-- An exception escaping `value_or_null`: a ParseError from normalizing the
endpoints, or an error raised by the external queryset. -/
inductive VErr (ε : Type) where
  | parse (e : ParseError)
  | lookup (e : ε)
deriving DecidableEq

/-- `value_or_null(start_date, end_date, queryset, date_attr, value_attr)`.
The queryset is modelled by its filter capability: given the date attribute
name and the `__year`/`__month`/`__day` components it returns the matching
records (or raises).  For each date of `date_range(start, end)` (inclusive
mode, the default), if exactly one record matches (`items.count() == 1`,
i.e. `items = [r]`) the record's `value_attr` field (`vars(items.first())
[value_attr]`) is yielded, otherwise the string `'null'`. -/
def value_or_null {ε α : Type} (start_date end_date : DateSpec)
    (queryset : String → Int → Int → Int → Except ε (List (Record α)))
    (date_attr value_attr : String) : Except (VErr ε) (List (PyVal α)) :=
  match start_date.normalize with
  | .error e => .error (.parse e)
  | .ok s =>
    match end_date.normalize with
    | .error e => .error (.parse e)
    | .ok e =>
      mapE (fun new_date =>
        match queryset date_attr new_date.year new_date.month new_date.day with
        | .error ex => .error (VErr.lookup ex)
        | .ok items =>
          .ok (match items with
            | [r] => r value_attr
            | _ => PyVal.str "null"))
        (date_range_from s e true)

/-- Whether an `Except` computation succeeded. -/
def isOk : Except ε α → Bool
  | .ok _ => true
  | .error _ => false

/-- The spec's "existing calendar date" requirement: year `1..9999`, month
`1..12`, day at least 1 and at most the length of the month. -/
def existingDate (y m d : Nat) : Bool :=
  decide (1 ≤ y ∧ y ≤ 9999 ∧ 1 ≤ m ∧ m ≤ 12 ∧ 1 ≤ d ∧ (d : Int) ≤ daysInMonth y m)

/-- The date-string format as worded by the spec: a string strictly matching
zero-padded four-digit-year `YYYY-MM-DD` that encodes an existing calendar
date. -/
def specStrictYMD (s : String) : Bool :=
  match s.data with
  | [y1, y2, y3, y4, h1, m1, m2, h2, d1, d2] =>
    isDig y1 && isDig y2 && isDig y3 && isDig y4 && (h1 == '-') &&
    isDig m1 && isDig m2 && (h2 == '-') && isDig d1 && isDig d2 &&
    existingDate (1000 * digitVal y1 + 100 * digitVal y2 + 10 * digitVal y3 + digitVal y4)
      (10 * digitVal m1 + digitVal m2) (10 * digitVal d1 + digitVal d2)
  | _ => false

/-- The date-string format the code actually accepts: a four-digit year, a
dash, a one- or two-digit month, a dash, and a one- or two-digit day
(zero-padding of month and day optional), encoding an existing calendar
date. -/
def specFlexYMD (s : String) : Bool :=
  match s.data with
  | [y1, y2, y3, y4, h1, m1, h2, d1] =>
    isDig y1 && isDig y2 && isDig y3 && isDig y4 && (h1 == '-') &&
    isDig m1 && (h2 == '-') && isDig d1 &&
    existingDate (1000 * digitVal y1 + 100 * digitVal y2 + 10 * digitVal y3 + digitVal y4)
      (digitVal m1) (digitVal d1)
  | [y1, y2, y3, y4, h1, a, b, c, d] =>
    isDig y1 && isDig y2 && isDig y3 && isDig y4 && (h1 == '-') &&
    (((b == '-') && isDig a && isDig c && isDig d &&
      existingDate (1000 * digitVal y1 + 100 * digitVal y2 + 10 * digitVal y3 + digitVal y4)
        (digitVal a) (10 * digitVal c + digitVal d)) ||
     ((c == '-') && isDig a && isDig b && isDig d &&
      existingDate (1000 * digitVal y1 + 100 * digitVal y2 + 10 * digitVal y3 + digitVal y4)
        (10 * digitVal a + digitVal b) (digitVal d)))
  | [y1, y2, y3, y4, h1, m1, m2, h2, d1, d2] =>
    isDig y1 && isDig y2 && isDig y3 && isDig y4 && (h1 == '-') &&
    isDig m1 && isDig m2 && (h2 == '-') && isDig d1 && isDig d2 &&
    existingDate (1000 * digitVal y1 + 100 * digitVal y2 + 10 * digitVal y3 + digitVal y4)
      (10 * digitVal m1 + digitVal m2) (10 * digitVal d1 + digitVal d2)
  | _ => false

/-- A concrete record fixture: its `value` attribute holds the number 7. -/
def recW : Record Int := fun attr => if attr = "value" then .num 7 else .str ""

/-- A concrete queryset fixture with a single record on day 2 of any month. -/
def qsW5 : String → Int → Int → Int → Except String (List (Record Int)) :=
  fun _ _ _ d => .ok (if d = 2 then [recW] else [])

/-- Two concrete record fixtures sharing a date. -/
def recWa : Record Int := fun _ => .num 1

/-- Two concrete record fixtures sharing a date. -/
def recWb : Record Int := fun _ => .num 2

/-- A concrete queryset fixture with two records on every date. -/
def qsW10 : String → Int → Int → Int → Except String (List (Record Int)) :=
  fun _ _ _ _ => .ok [recWa, recWb]

/-- A concrete queryset fixture raising an error on day 2 of any month. -/
def qsW9 : String → Int → Int → Int → Except String (List (Record Int)) :=
  fun _ _ _ d => if d = 2 then .error "boom" else .ok []

-- Sanity checks of the date arithmetic and the parser.
example : toordinal 1 1 1 = 1 := by decide
example : toordinal 1970 1 1 = 719163 := by decide
example : toordinal 2020 1 1 = 737425 := by decide
example : civil_from_days (737425 - 719163) = (2020, 1, 1) := by decide
example : civil_from_days (1 - 719163) = (1, 1, 1) := by decide
example : toordinal 2020 3 1 - toordinal 2020 2 29 = 1 := by decide
example : toordinal 2021 3 1 - toordinal 2021 2 28 = 1 := by decide
example : str_to_datetime_date "2020-01-01" = .ok ⟨737425⟩ := rfl
example : str_to_datetime_date "2020-1-1" = .ok ⟨737425⟩ := rfl
example : isOk (str_to_datetime_date "2020-02-29") = true := by decide
example : isOk (str_to_datetime_date "2021-02-29") = false := by decide
example : isOk (str_to_datetime_date "2020-13-01") = false := by decide
example : isOk (str_to_datetime_date "0000-01-01") = false := by decide
example : isOk (str_to_datetime_date "2020-01-01x") = false := by decide
example : Date.year ⟨737484⟩ = 2020 ∧ Date.month ⟨737484⟩ = 2 ∧ Date.day ⟨737484⟩ = 29 := by
  decide

/-! ### Helper lemmas -/

theorem date_range_from_length (s e : Date) (incl : Bool) :
    (date_range_from s e incl).length = (e.sub s + (if incl then 1 else 0)).toNat := by
  simp only [date_range_from, List.length_map, List.length_range]

theorem date_range_from_get (s e : Date) (incl : Bool) (i : Nat)
    (h : i < (date_range_from s e incl).length) :
    (date_range_from s e incl).get ⟨i, h⟩ = s.addDays i := by
  simp only [date_range_from, List.get_eq_getElem, List.getElem_map, List.getElem_range]

theorem mapE_length {α β ε : Type} (f : α → Except ε β) :
    ∀ (l : List α) (bs : List β), mapE f l = .ok bs → bs.length = l.length := by
  intro l
  induction l with
  | nil =>
    intro bs h
    simp only [mapE] at h
    cases h
    rfl
  | cons a t ih =>
    intro bs h
    simp only [mapE] at h
    cases hf : f a with
    | error e => rw [hf] at h; cases h
    | ok b =>
      rw [hf] at h
      cases ht : mapE f t with
      | error e => rw [ht] at h; cases h
      | ok cs =>
        rw [ht] at h
        cases h
        simp [ih cs ht]

theorem mapE_get {α β ε : Type} (f : α → Except ε β) :
    ∀ (l : List α) (bs : List β), mapE f l = .ok bs →
      ∀ (i : Nat) (hi : i < l.length) (hbi : i < bs.length),
        f (l.get ⟨i, hi⟩) = .ok (bs.get ⟨i, hbi⟩) := by
  intro l
  induction l with
  | nil =>
    intro bs h i hi hbi
    exact absurd hi (by simp)
  | cons a t ih =>
    intro bs h i hi hbi
    simp only [mapE] at h
    cases hf : f a with
    | error e => rw [hf] at h; cases h
    | ok b =>
      rw [hf] at h
      cases ht : mapE f t with
      | error e => rw [ht] at h; cases h
      | ok cs =>
        rw [ht] at h
        cases h
        cases i with
        | zero => simpa using hf
        | succ j =>
          exact ih cs ht j (Nat.lt_of_succ_lt_succ hi) (Nat.lt_of_succ_lt_succ hbi)

theorem mapE_error {α β ε : Type} (f : α → Except ε β) :
    ∀ (l : List α) (k : Nat) (hk : k < l.length) (ex : ε),
      (∀ (j : Nat) (hj : j < k), isOk (f (l.get ⟨j, Nat.lt_trans hj hk⟩)) = true) →
      f (l.get ⟨k, hk⟩) = .error ex → mapE f l = .error ex := by
  intro l
  induction l with
  | nil =>
    intro k hk
    exact absurd hk (by simp)
  | cons a t ih =>
    intro k hk ex hpre herr
    cases k with
    | zero =>
      simp only [List.get] at herr
      simp only [mapE, herr]
    | succ k' =>
      have h0 : isOk (f a) = true := hpre 0 (Nat.succ_pos k')
      cases hf : f a with
      | error e => rw [hf] at h0; simp [isOk] at h0
      | ok b =>
        have ht : mapE f t = .error ex := by
          refine ih k' (Nat.lt_of_succ_lt_succ hk) ex ?_ herr
          intro j hj
          exact hpre (j + 1) (Nat.succ_lt_succ hj)
        simp only [mapE, hf, ht]

theorem digitVal_le_9 (c : Char) (h : isDig c = true) : 1 * digitVal c ≤ 9 := by
  simp only [isDig, decide_eq_true_eq] at h
  simp only [digitVal, Nat.one_mul]
  omega

theorem read2or1_inv (maxTwo : Nat) :
    ∀ (cs : List Char) (v : Nat) (cs' : List Char), read2or1 maxTwo cs = some (v, cs') →
      ((∃ a b, cs = a :: b :: cs' ∧ isDig a = true ∧ isDig b = true ∧
          v = 10 * digitVal a + digitVal b ∧ 1 ≤ v ∧ v ≤ maxTwo) ∨
       (∃ a, cs = a :: cs' ∧ isDig a = true ∧ v = digitVal a ∧ 1 ≤ v ∧ v ≤ 9)) := by
  intro cs v cs' h
  match cs with
  | [] => simp [read2or1] at h
  | [c1] =>
    simp only [read2or1] at h
    split at h
    · rename_i hc
      cases h
      right
      refine ⟨c1, rfl, hc.1, rfl, hc.2, ?_⟩
      simpa using digitVal_le_9 c1 hc.1
    · cases h
  | c1 :: c2 :: rest =>
    simp only [read2or1] at h
    split at h
    · rename_i hc
      cases h
      exact Or.inl ⟨c1, c2, rfl, hc.1, hc.2.1, rfl, hc.2.2.1, hc.2.2.2⟩
    · split at h
      · rename_i hc
        cases h
        right
        refine ⟨c1, rfl, hc.1, rfl, hc.2, ?_⟩
        simpa using digitVal_le_9 c1 hc.1
      · cases h

theorem Date.mk_ord (d : Date) : (⟨d.ord⟩ : Date) = d := rfl

theorem date_range_from_length_true (s e : Date) :
    (date_range_from s e true).length = (e.ord - s.ord + 1).toNat := by
  simp [date_range_from, Date.sub]

theorem date_range_from_length_false (s e : Date) :
    (date_range_from s e false).length = (e.ord - s.ord).toNat := by
  simp [date_range_from, Date.sub]

theorem date_range_from_self_true (s : Date) : date_range_from s s true = [s] := by
  apply List.ext_get
  · rw [date_range_from_length_true]
    simp
  · intro n h1 h2
    rw [date_range_from_get]
    have hn : n = 0 := by
      rw [date_range_from_length_true] at h1
      omega
    subst hn
    simp [Date.addDays, Date.mk_ord]

/-! ### Claims -/

/-- C1: for every pair of start/end inputs (strings or native dates) on which
`date_range` succeeds, the produced sequence is strictly increasing by
exactly one day per step: each element after the first equals its
predecessor plus one day (so there are no gaps and no duplicate dates). -/
theorem date_range_step_one_day (a b : DateSpec) (incl : Bool) (l : List Date)
    (h : date_range a b incl = .ok l)
    (i : Nat) (h1 : i + 1 < l.length) (h2 : i < l.length) :
    l.get ⟨i + 1, h1⟩ = (l.get ⟨i, h2⟩).addDays 1 := by
  unfold date_range at h
  cases hs : a.normalize with
  | error e => rw [hs] at h; cases h
  | ok s =>
    rw [hs] at h
    cases he : b.normalize with
    | error e => rw [he] at h; cases h
    | ok e =>
      rw [he] at h
      cases h
      rw [date_range_from_get s e incl (i + 1) h1, date_range_from_get s e incl i h2]
      simp only [Date.addDays, Date.mk.injEq]
      push_cast
      ring

theorem date_range_step_one_day_witness :
    ([⟨737425⟩, ⟨737426⟩] : List Date).get ⟨1, by decide⟩ =
      (([⟨737425⟩, ⟨737426⟩] : List Date).get ⟨0, by decide⟩).addDays 1 :=
  date_range_step_one_day (.date ⟨737425⟩) (.date ⟨737426⟩) true
    [⟨737425⟩, ⟨737426⟩] rfl 0 (by decide) (by decide)

/-- C2: for every valid start and end with start ≤ end,
`date_range(start, end, inclusive=True)` produces exactly
`(end - start).days + 1` dates; when start = end it produces exactly the one
date `[start]`. -/
theorem date_range_inclusive_length (a b : DateSpec) (s e : Date) (l : List Date)
    (hs : a.normalize = .ok s) (he : b.normalize = .ok e)
    (h : date_range a b true = .ok l) (hord : s.ord ≤ e.ord) :
    (l.length : Int) = e.sub s + 1 ∧ (s = e → l = [s]) := by
  have hl : l = date_range_from s e true := by
    unfold date_range at h
    rw [hs, he] at h
    cases h
    rfl
  subst hl
  constructor
  · rw [date_range_from_length_true]
    simp only [Date.sub]
    omega
  · intro hse
    subst hse
    exact date_range_from_self_true s

theorem date_range_inclusive_length_witness :
    (([⟨737425⟩] : List Date).length : Int) = Date.sub ⟨737425⟩ ⟨737425⟩ + 1 ∧
      ((⟨737425⟩ : Date) = ⟨737425⟩ → ([⟨737425⟩] : List Date) = [⟨737425⟩]) :=
  date_range_inclusive_length (.date ⟨737425⟩) (.date ⟨737425⟩) ⟨737425⟩ ⟨737425⟩
    [⟨737425⟩] rfl rfl rfl (by decide)

/-- C3: for every valid start and end with start ≤ end,
`date_range(start, end, inclusive=False)` produces exactly
`(end - start).days` dates; when start = end it produces zero dates. -/
theorem date_range_exclusive_length (a b : DateSpec) (s e : Date) (l : List Date)
    (hs : a.normalize = .ok s) (he : b.normalize = .ok e)
    (h : date_range a b false = .ok l) (hord : s.ord ≤ e.ord) :
    (l.length : Int) = e.sub s ∧ (s = e → l = []) := by
  have hl : l = date_range_from s e false := by
    unfold date_range at h
    rw [hs, he] at h
    cases h
    rfl
  subst hl
  constructor
  · rw [date_range_from_length_false]
    simp only [Date.sub]
    omega
  · intro hse
    subst hse
    have h1 : (date_range_from s s false).length = 0 := by
      rw [date_range_from_length_false]
      omega
    exact List.eq_nil_of_length_eq_zero h1

theorem date_range_exclusive_length_witness :
    (([⟨737425⟩, ⟨737426⟩] : List Date).length : Int) = Date.sub ⟨737427⟩ ⟨737425⟩ ∧
      ((⟨737425⟩ : Date) = ⟨737427⟩ → ([⟨737425⟩, ⟨737426⟩] : List Date) = []) :=
  date_range_exclusive_length (.date ⟨737425⟩) (.date ⟨737427⟩) ⟨737425⟩ ⟨737427⟩
    [⟨737425⟩, ⟨737426⟩] rfl rfl rfl (by decide)

/-- C4: for every start and end with end strictly before start, `date_range`
produces zero elements in both inclusive and exclusive modes, returning
normally rather than raising. -/
theorem date_range_end_before_start_empty (a b : DateSpec) (s e : Date)
    (hs : a.normalize = .ok s) (he : b.normalize = .ok e)
    (hlt : e.ord < s.ord) :
    date_range a b true = .ok [] ∧ date_range a b false = .ok [] := by
  have hempty : ∀ incl : Bool, date_range_from s e incl = [] := by
    intro incl
    have h0 : (Date.sub e s + (if incl then 1 else 0) : Int).toNat = 0 := by
      simp only [Date.sub]
      split <;> omega
    simp only [date_range_from, h0, List.range_zero, List.map_nil]
  simp only [date_range, hs, he]
  rw [hempty true, hempty false]
  exact ⟨rfl, rfl⟩

theorem date_range_end_before_start_empty_witness :
    date_range (.date ⟨737427⟩) (.date ⟨737425⟩) true = .ok [] ∧
      date_range (.date ⟨737427⟩) (.date ⟨737425⟩) false = .ok [] :=
  date_range_end_before_start_empty (.date ⟨737427⟩) (.date ⟨737425⟩)
    ⟨737427⟩ ⟨737425⟩ rfl rfl (by decide)

/-- C8: for equivalent inputs — a string and the native date it encodes —
`date_range` produces identical output whichever form is passed for the
start and for the end argument. -/
theorem date_range_string_date_equiv (s : String) (d : Date)
    (h : str_to_datetime_date s = .ok d) (other : DateSpec) (incl : Bool) :
    date_range (.str s) other incl = date_range (.date d) other incl ∧
      date_range other (.str s) incl = date_range other (.date d) incl := by
  constructor <;> simp only [date_range, DateSpec.normalize, h]

theorem date_range_string_date_equiv_witness :
    date_range (.str "2020-01-01") (.str "2020-01-03") true =
      date_range (.date ⟨737425⟩) (.str "2020-01-03") true :=
  (date_range_string_date_equiv "2020-01-01" ⟨737425⟩ rfl (.str "2020-01-03") true).1

/-- C5: for every date in the range traversed by `value_or_null`, if the
lookup for that date returns exactly one record the emitted value is that
record's `value_attr` field, and if it returns zero records the emitted
value is the literal string sentinel `'null'` (an entry is present and it is
not a numeric zero). -/
theorem value_or_null_single_or_missing {ε α : Type} (a b : DateSpec) (s e : Date)
    (qs : String → Int → Int → Int → Except ε (List (Record α))) (da va : String)
    (out : List (PyVal α))
    (hs : a.normalize = .ok s) (he : b.normalize = .ok e)
    (h : value_or_null a b qs da va = .ok out)
    (i : Nat) (hi : i < out.length) (items : List (Record α))
    (hq : qs da ((s.addDays i).year) ((s.addDays i).month) ((s.addDays i).day) = .ok items) :
    (∀ r, items = [r] → out.get ⟨i, hi⟩ = r va) ∧
      (items = [] → out.get ⟨i, hi⟩ = PyVal.str "null") := by
  unfold value_or_null at h
  rw [hs, he] at h
  have hlen := mapE_length _ _ _ h
  have hii : i < (date_range_from s e true).length := by omega
  have hget := mapE_get _ _ _ h i hii hi
  rw [date_range_from_get s e true i hii] at hget
  simp only [hq] at hget
  constructor
  · intro r hr
    subst hr
    simp only at hget
    injection hget with h2
    exact h2.symm
  · intro hnil
    subst hnil
    simp only at hget
    injection hget with h2
    exact h2.symm

theorem value_or_null_single_or_missing_witness :
    ([.str "null", .num 7, .str "null"] : List (PyVal Int)).get ⟨1, by decide⟩ =
      PyVal.num 7 := by
  have h := (value_or_null_single_or_missing (.date ⟨737425⟩) (.date ⟨737427⟩)
    ⟨737425⟩ ⟨737427⟩ qsW5 "date" "value"
    [.str "null", .num 7, .str "null"] rfl rfl rfl 1 (by decide) [recW] rfl).1 recW rfl
  exact h.trans rfl

/-- C6: for every start/end pair and every lookup capability on which
`value_or_null` returns normally, it produces exactly one OutputValue per
date: its output length equals the length of
`date_range(start, end, inclusive=True)` for the same endpoints. -/
theorem value_or_null_length_eq_date_range {ε α : Type} (a b : DateSpec)
    (qs : String → Int → Int → Int → Except ε (List (Record α))) (da va : String)
    (out : List (PyVal α)) (l : List Date)
    (hv : value_or_null a b qs da va = .ok out)
    (hr : date_range a b true = .ok l) :
    out.length = l.length := by
  unfold value_or_null at hv
  unfold date_range at hr
  cases hs : a.normalize with
  | error e => rw [hs] at hv; cases hv
  | ok s =>
    rw [hs] at hv hr
    cases he : b.normalize with
    | error e2 => rw [he] at hv; cases hv
    | ok e =>
      rw [he] at hv hr
      cases hr
      exact mapE_length _ _ _ hv

theorem value_or_null_length_eq_date_range_witness :
    ([.str "null", .num 7] : List (PyVal Int)).length =
      ([⟨737425⟩, ⟨737426⟩] : List Date).length :=
  value_or_null_length_eq_date_range (.date ⟨737425⟩) (.date ⟨737426⟩) qsW5
    "date" "value" [.str "null", .num 7] [⟨737425⟩, ⟨737426⟩] rfl rfl

/-- C10: for every date whose lookup returns two or more matching records,
`value_or_null` emits the literal string sentinel `'null'`, exactly as in
the zero-match case: it does not error and does not pick one of the
records. -/
theorem value_or_null_ambiguous_null {ε α : Type} (a b : DateSpec) (s e : Date)
    (qs : String → Int → Int → Int → Except ε (List (Record α))) (da va : String)
    (out : List (PyVal α))
    (hs : a.normalize = .ok s) (he : b.normalize = .ok e)
    (h : value_or_null a b qs da va = .ok out)
    (i : Nat) (hi : i < out.length) (items : List (Record α))
    (hq : qs da ((s.addDays i).year) ((s.addDays i).month) ((s.addDays i).day) = .ok items)
    (hlen2 : 2 ≤ items.length) :
    out.get ⟨i, hi⟩ = PyVal.str "null" := by
  unfold value_or_null at h
  rw [hs, he] at h
  have hlen := mapE_length _ _ _ h
  have hii : i < (date_range_from s e true).length := by omega
  have hget := mapE_get _ _ _ h i hii hi
  rw [date_range_from_get s e true i hii] at hget
  simp only [hq] at hget
  match items, hlen2 with
  | r1 :: r2 :: t, _ =>
    simp only at hget
    injection hget with h2
    exact h2.symm

theorem value_or_null_ambiguous_null_witness :
    ([.str "null"] : List (PyVal Int)).get ⟨0, by decide⟩ = PyVal.str "null" :=
  value_or_null_ambiguous_null (.date ⟨737425⟩) (.date ⟨737425⟩) ⟨737425⟩ ⟨737425⟩
    qsW10 "date" "value" [.str "null"] rfl rfl rfl 0 (by decide) [recWa, recWb]
    rfl (by decide)

/-- C9: if the lookup capability raises an error on some date of the range
(and succeeded on the earlier dates, which a lazily consumed generator has
already traversed), `value_or_null` propagates exactly that error to its
caller: no retry, no suppression, and no substitution of the sentinel. -/
theorem value_or_null_propagates_lookup_error {ε α : Type} (a b : DateSpec) (s e : Date)
    (qs : String → Int → Int → Int → Except ε (List (Record α))) (da va : String)
    (hs : a.normalize = .ok s) (he : b.normalize = .ok e)
    (k : Nat) (hk : k < (date_range_from s e true).length) (ex : ε)
    (hpre : ∀ (j : Nat), j < k →
      isOk (qs da ((s.addDays j).year) ((s.addDays j).month) ((s.addDays j).day)) = true)
    (herr : qs da ((s.addDays k).year) ((s.addDays k).month) ((s.addDays k).day) = .error ex) :
    value_or_null a b qs da va = .error (VErr.lookup ex) := by
  unfold value_or_null
  rw [hs, he]
  apply mapE_error _ _ k hk
  · intro j hj
    rw [date_range_from_get]
    have hOk := hpre j hj
    cases hq : qs da ((s.addDays j).year) ((s.addDays j).month) ((s.addDays j).day) with
    | error e3 => rw [hq] at hOk; simp [isOk] at hOk
    | ok items => simp only [hq, isOk]
  · rw [date_range_from_get]
    simp only [herr]

theorem value_or_null_propagates_lookup_error_witness :
    value_or_null (.date ⟨737425⟩) (.date ⟨737426⟩) qsW9 "date" "value" =
      .error (VErr.lookup "boom") := by
  refine value_or_null_propagates_lookup_error (.date ⟨737425⟩) (.date ⟨737426⟩)
    ⟨737425⟩ ⟨737426⟩ qsW9 "date" "value" rfl rfl 1 (by decide) "boom" ?_ rfl
  intro j hj
  have hj0 : j = 0 := by omega
  subst hj0
  decide

theorem parse_ok_specFlex (s : String) (dt : Date)
    (h : str_to_datetime_date s = .ok dt) : specFlexYMD s = true := by
  unfold str_to_datetime_date at h
  split at h
  all_goals try exact Except.noConfusion h
  rename_i c1 c2 c3 c4 c5 rest hds
  split at h
  all_goals try exact Except.noConfusion h
  rename_i hcond
  split at h
  all_goals try exact Except.noConfusion h
  rename_i heqm
  split at h
  all_goals try exact Except.noConfusion h
  rename_i hc6
  split at h
  all_goals try exact Except.noConfusion h
  rename_i heqd
  simp only [] at h
  split at h
  all_goals try exact Except.noConfusion h
  rename_i hval
  clear h
  obtain ⟨hy1, hy2, hy3, hy4, hc5⟩ := hcond
  subst hc5
  subst hc6
  rcases read2or1_inv _ _ _ _ heqm with
      ⟨a, b2, hrest, hda, hdb, hmv, hm1, hm2⟩ | ⟨a, hrest, hda, hmv, hm1, hm2⟩ <;>
    rcases read2or1_inv _ _ _ _ heqd with
      ⟨p, q, hrest2, hdp, hdq, hdv, hd1, hd2⟩ | ⟨p, hrest2, hdp, hdv, hd1, hd2⟩ <;>
    subst hrest <;> subst hrest2 <;> subst hmv <;> subst hdv
  · have hex : existingDate
        (1000 * digitVal c1 + 100 * digitVal c2 + 10 * digitVal c3 + digitVal c4)
        (10 * digitVal a + digitVal b2) (10 * digitVal p + digitVal q) = true := by
      simp only [existingDate, decide_eq_true_eq]
      exact ⟨hval.1, hval.2.1, by omega, by omega, by omega, hval.2.2⟩
    simp [specFlexYMD, hds, hy1, hy2, hy3, hy4, hda, hdb, hdp, hdq, hex]
  · have hex : existingDate
        (1000 * digitVal c1 + 100 * digitVal c2 + 10 * digitVal c3 + digitVal c4)
        (10 * digitVal a + digitVal b2) (digitVal p) = true := by
      simp only [existingDate, decide_eq_true_eq]
      exact ⟨hval.1, hval.2.1, by omega, by omega, by omega, hval.2.2⟩
    simp [specFlexYMD, hds, hy1, hy2, hy3, hy4, hda, hdb, hdp, hex]
  · have hex : existingDate
        (1000 * digitVal c1 + 100 * digitVal c2 + 10 * digitVal c3 + digitVal c4)
        (digitVal a) (10 * digitVal p + digitVal q) = true := by
      simp only [existingDate, decide_eq_true_eq]
      exact ⟨hval.1, hval.2.1, by omega, by omega, by omega, hval.2.2⟩
    simp [specFlexYMD, hds, hy1, hy2, hy3, hy4, hda, hdp, hdq, hex]
  · have hex : existingDate
        (1000 * digitVal c1 + 100 * digitVal c2 + 10 * digitVal c3 + digitVal c4)
        (digitVal a) (digitVal p) = true := by
      simp only [existingDate, decide_eq_true_eq]
      exact ⟨hval.1, hval.2.1, by omega, by omega, by omega, hval.2.2⟩
    simp [specFlexYMD, hds, hy1, hy2, hy3, hy4, hda, hdp, hex]

/-- C7 counterexample: the string `'2020-1-1'` does not strictly match the
zero-padded `YYYY-MM-DD` format, yet the parser accepts it, so the parser
does not fail on every string outside the strict zero-padded format. -/
theorem str_to_datetime_date_accepts_unpadded :
    specStrictYMD "2020-1-1" = false ∧ isOk (str_to_datetime_date "2020-1-1") = true :=
  ⟨by decide, by decide⟩

/-- C7 (amended): the parser fails with a ParseError unless the string is a
four-digit year, a dash, a one- or two-digit month, a dash, and a one- or
two-digit day — zero-padding of month and day optional — encoding an
existing calendar date; in particular `'2020-13-01'` and `'2020-02-30'`
fail with ParseError. -/
theorem str_to_datetime_date_accepted_format :
    (∀ s : String, isOk (str_to_datetime_date s) = true → specFlexYMD s = true) ∧
      str_to_datetime_date "2020-13-01" = .error .parseError ∧
      str_to_datetime_date "2020-02-30" = .error .parseError := by
  refine ⟨?_, rfl, rfl⟩
  intro s hok
  cases hp : str_to_datetime_date s with
  | error e => rw [hp] at hok; simp [isOk] at hok
  | ok dt => exact parse_ok_specFlex s dt hp

theorem str_to_datetime_date_accepted_format_witness :
    specFlexYMD "2020-01-02" = true :=
  str_to_datetime_date_accepted_format.1 "2020-01-02" (by decide)
